import Mathlib

/-!
Shallow embedding of the `claude-code-leaderboard` client-side telemetry
engine (hook v4 plus the shared data collector, and the exit-code wrapper of
hook v3), with theorems checking the natural-language specification.

Sources embedded:
  * `src/client/hooks/shared/data-collector.js` (the unnamed shared module):
    `parseUsageFromLine`, `readFileIncremental`, `collectNewUsageDataIncremental`.
  * `src/client/hooks/count_tokens_v4.js`: `loadState`, `updateStateHashes`,
    `sendWithBudget`, `FileLock.acquire` / `FileLock.release`, `main` and the
    top-level `main().catch(() => {}).finally(() => process.exit(0))` wrapper.
  * `src/client/hooks/count_tokens_v3.js`: the exit-code skeleton of `main`.

Modelling conventions:
  * JSON values are the inductive `Json` (numbers as rationals, since JSON
    numbers need not be integers).
  * `JSON.parse` failures (including empty / whitespace-only lines, which make
    `JSON.parse` throw) are represented by `none : Option Json`.
  * The SHA-256 fingerprint is an explicit function parameter
    `hash : String → String`; the claims treat fingerprints as opaque.
  * Wall-clock readings (`Date.now()`, `toISOString`, the 30-day cutoff day
    key) are explicit parameters of the functions that read the clock.
  * File contents are lists of lines; byte offsets are modelled in line units
    (the offset arithmetic `0 / saved.offset / current.size` and the
    comparisons `size == prior.size`, `size < prior.size` are insensitive to
    the unit; no claim concerns a line split at a byte boundary).
-/

namespace ClaudeStats

/-- JSON values as produced by `JSON.parse`. -/
inductive Json where
  | null : Json
  | bool : Bool → Json
  | num : ℚ → Json
  | str : String → Json
  | arr : List Json → Json
  | obj : List (String × Json) → Json

/-- Property access `v[k]` / `v?.k`: field lookup on objects, `undefined`
(collapsed with `null`, which has the same truthiness and fails the same
`typeof === 'number'` test) on anything else or when the key is absent. -/
def jget : Json → String → Json
  | .obj fields, k => (fields.lookup k).getD .null
  | _, _ => .null

/-- JavaScript truthiness of a JSON value (`NaN` is not representable in
JSON, so every number but `0` is truthy). -/
def truthy : Json → Bool
  | .null => false
  | .bool b => b
  | .num q => q != 0
  | .str s => s != ""
  | .arr _ => true
  | .obj _ => true

/-- JavaScript `x || y`. -/
def jsOr (x y : Json) : Json := if truthy x then x else y

/-- The test `typeof v === 'number'`. -/
def isNumber : Json → Bool
  | .num _ => true
  | _ => false

/-- JavaScript string coercion as used inside template literals. Number
formatting is a modelling choice (JS prints decimals, we print the rational);
the claims only use that the coercion is a function. -/
def jsCoe : Json → String
  | .null => "null"
  | .bool true => "true"
  | .bool false => "false"
  | .num q => if q.den = 1 then toString q.num else toString q
  | .str s => s
  | .arr xs => String.intercalate "," (xs.map fun x => jsCoeAux x)
  | .obj _ => "[object Object]"
where
  /-- Coercion of array elements (`null` prints as the empty string there);
  nested arrays are flattened by JS, rendered here one level deep. -/
  jsCoeAux : Json → String
  | .null => ""
  | .bool true => "true"
  | .bool false => "false"
  | .num q => if q.den = 1 then toString q.num else toString q
  | .str s => s
  | .arr _ => ""
  | .obj _ => "[object Object]"

/-- A parsed usage record, as built by `parseUsageFromLine` (data-collector
lines 69-80).  `timestamp`, the cache token counts, `model` and `session_id`
keep the raw JSON values the source stores in them; `input`/`output` passed a
`typeof === 'number'` test, so they are numbers. -/
structure UsageRecord where
  timestamp : Json
  input : ℚ
  output : ℚ
  cache_creation : Json
  cache_read : Json
  model : Json
  session_id : Json
  interaction_hash : String

/-- Embedding of `parseUsageFromLine` (data-collector lines 54-84).  The argument is the
result of `JSON.parse(line.trim())`: `none` when parsing threw (empty or
whitespace-only line, or malformed JSON), in which case the `catch` returns
`null`. `hash` is the SHA-256 hex digest function. -/
def parseUsageFromLine (hash : String → String) : Option Json → Option UsageRecord
  | none => none
  | some data =>
    let ts := jget data "timestamp"
    let message := jget data "message"
    let usage := jget message "usage"
    if !truthy ts || !truthy usage then none
    else
      match jget usage "input_tokens", jget usage "output_tokens" with
      | .num i, .num o =>
        let hashInput :=
          jsCoe ts ++ jsCoe (jsOr (jget message "id") (.str ""))
            ++ jsCoe (jsOr (jget data "requestId") (.str ""))
        some
          { timestamp := ts
            input := i
            output := o
            cache_creation := jsOr (jget usage "cache_creation_input_tokens") (.num 0)
            cache_read := jsOr (jget usage "cache_read_input_tokens") (.num 0)
            model := jsOr (jget message "model") (.str "unknown")
            session_id := jsOr (jget data "sessionId") .null
            interaction_hash := hash hashInput }
      | _, _ => none

/-- JavaScript `a < b` on strings: lexicographic comparison of code units
(identical to comparing the character sequences for the ASCII day keys the
engine uses). -/
def jsLt (a b : String) : Bool :=
  go a.toList b.toList
where
  go : List Char → List Char → Bool
  | [], [] => false
  | [], _ :: _ => true
  | _ :: _, [] => false
  | x :: xs, y :: ys => if x = y then go xs ys else decide (x.val < y.val)

/-- The value `s.split(sep)[0]` for a one-character separator: the prefix of `s` up to
(excluding) the first occurrence of `sep`, the whole string if `sep` does not
occur. -/
def splitFirst (sep : Char) (s : String) : String :=
  String.mk (s.toList.takeWhile fun c => c != sep)

/-- The day key `entry.timestamp.split('T')[0]` of a record.  The source
would raise a `TypeError` on a non-string timestamp; no modelled scenario
reaches that case, so non-strings map to `""`. -/
def dayKeyJs : Json → String
  | .str s => splitFirst 'T' s
  | _ => ""

/-- A File Offset Entry `{offset, size, mtime}` (per tracked log file). -/
structure OffsetEntry where
  offset : Nat
  size : Nat
  mtime : Nat
deriving DecidableEq

/-- A log file: its lines (each given as its `JSON.parse` result) and its
stat mtime.  The stat size is the line count (see the module comment on
offset units). -/
structure JFile where
  lines : List (Option Json)
  mtime : Nat

/-- Stat size of a modelled file. -/
def JFile.size (f : JFile) : Nat := f.lines.length

/-- The membership test `hashSets[dayKey]?.has(hash)`: membership of a fingerprint in the Dedup
Index for one day.  `buildHashSets` (data-collector lines 178-184) only
converts the per-day lists to `Set`s for O(1) lookup; membership is
unchanged, so the index is kept in its serialized list form here. -/
def hasHash (idx : List (String × List String)) (day h : String) : Bool :=
  match idx.lookup day with
  | some hs => hs.contains h
  | none => false

/-- The per-line loop of `readFileIncremental` (data-collector lines
232-243): skip lines whose parse failed (blank lines and malformed JSON both
yield `none`), then drop records whose fingerprint is already in the Dedup
Index for their day, keep the rest in order. -/
def parseNewLines (hash : String → String) (idx : List (String × List String)) :
    List (Option Json) → List UsageRecord
  | [] => []
  | l :: ls =>
    match parseUsageFromLine hash l with
    | none => parseNewLines hash idx ls
    | some e =>
      if hasHash idx (dayKeyJs e.timestamp) e.interaction_hash then
        parseNewLines hash idx ls
      else
        e :: parseNewLines hash idx ls

/-- Embedding of `readFileIncremental` (data-collector lines 187-266) for a file whose
stat succeeds, given the saved offset entry (if any).  Returns the records
parsed from the newly read region together with the offset entry left in the
`offsets` map afterwards (unchanged in the skip case, otherwise
`{offset: currentSize, size: currentSize, mtime: currentMtime}`). -/
def readFileIncremental (hash : String → String) (idx : List (String × List String))
    (f : JFile) (saved : Option OffsetEntry) : List UsageRecord × OffsetEntry :=
  let currentSize := f.size
  let currentMtime := f.mtime
  match saved with
  | some e =>
    if e.size = currentSize ∧ e.mtime = currentMtime then
      ([], e)
    else
      let startOffset := if currentSize < e.size then 0 else e.offset
      if currentSize ≤ startOffset then
        ([], ⟨currentSize, currentSize, currentMtime⟩)
      else
        (parseNewLines hash idx (f.lines.drop startOffset),
          ⟨currentSize, currentSize, currentMtime⟩)
  | none =>
    if currentSize ≤ 0 then
      ([], ⟨currentSize, currentSize, currentMtime⟩)
    else
      (parseNewLines hash idx f.lines, ⟨currentSize, currentSize, currentMtime⟩)

/-- Embedding of `collectNewUsageDataIncremental` (data-collector lines 269-324) over the
discovered `.jsonl` files (path / content pairs, assumed distinct paths as
produced by the directory walk).  Records accumulate in file-scan order; the
committed offsets map holds exactly the entries of the seen files (entries of
files that disappeared are garbage-collected, lines 310-314). -/
def collectNewUsageDataIncremental (hash : String → String)
    (recentHashes : List (String × List String))
    (files : List (String × JFile)) (offsets : List (String × OffsetEntry)) :
    List UsageRecord × List (String × OffsetEntry) :=
  ((files.map fun pf =>
      (readFileIncremental hash recentHashes pf.2 (offsets.lookup pf.1)).1).flatten,
    files.map fun pf =>
      (pf.1, (readFileIncremental hash recentHashes pf.2 (offsets.lookup pf.1)).2))

/-! ## Delivery scheduler (`sendWithBudget`, count_tokens_v4.js lines 257-308) -/

/-- The constant `BATCH_SIZE` (count_tokens_v4.js line 32). -/
def BATCH_SIZE : Nat := 200

/-- The batch loop of `sendWithBudget`.  `remaining` is
`entries.slice(batchIndex * BATCH_SIZE)`; the loop guard
`batchIndex * BATCH_SIZE < entries.length` is `remaining ≠ []`.
`budget bi` is the wall-clock test `Date.now() - startTime >= SEND_BUDGET_MS`
observed before batch `bi`; `sendOk bi` is the success of the one request for
batch `bi` (no retry).  The result is the trace of issued batches with their
outcomes: on a failure the loop breaks at once, so a failed batch ends the
trace.  `fuel` only makes the recursion structural: every iteration consumes
at least one element of `remaining`, so with `fuel ≥ remaining.length` (as in
`sendWithBudget`, which passes `entries.length`) the `fuel = 0` case is
unreachable. -/
def sendBatchLoop (budget sendOk : Nat → Bool) :
    Nat → List α → Nat → List (List α × Bool)
  | _, [], _ => []
  | 0, _ :: _, _ => []
  | fuel + 1, r :: rs, batchIndex =>
    if budget batchIndex then []
    else
      let batch := (r :: rs).take BATCH_SIZE
      if sendOk batchIndex then
        (batch, true) :: sendBatchLoop budget sendOk fuel ((r :: rs).drop BATCH_SIZE) (batchIndex + 1)
      else
        [(batch, false)]

/-- The counter `totalSent`: each successful batch adds `batch.length`. -/
def sentCount : List (List α × Bool) → Nat
  | [] => 0
  | p :: tr => (if p.2 then p.1.length else 0) + sentCount tr

/-- Embedding of `sendWithBudget` (count_tokens_v4.js lines 257-308): the issued-batch
trace, `totalSent`, and `unsent = entries.slice(totalSent)`. -/
def sendWithBudget (budget sendOk : Nat → Bool) (entries : List α) :
    List (List α × Bool) × Nat × List α :=
  let tr := sendBatchLoop budget sendOk entries.length entries 0
  (tr, sentCount tr, entries.drop (sentCount tr))

/-! ## Scan State and state management (count_tokens_v4.js) -/

/-- The in-memory Scan State after load (all fields present). -/
structure MState where
  version : String
  lastCleanup : String
  lastRunTimestamp : Int
  recentHashes : List (String × List String)
  fileOffsets : List (String × OffsetEntry)

/-- Embedding of `createDefaultState` (count_tokens_v4.js lines 174-182); `nowISO` is
`new Date().toISOString()`. -/
def createDefaultState (nowISO : String) : MState :=
  { version := "4.0.0"
    lastCleanup := nowISO
    lastRunTimestamp := 0
    recentHashes := []
    fileOffsets := [] }

/-- Append `entry.interaction_hash` to `state.recentHashes[dayKey]`, creating
the day bucket at the end of the map if absent (JS object key insertion
order); the per-entry loop of `updateStateHashes` lines 313-319. -/
def addHash (m : List (String × List String)) (day h : String) :
    List (String × List String) :=
  match m with
  | [] => [(day, [h])]
  | (d, hs) :: rest =>
    if d = day then (d, hs ++ [h]) :: rest else (d, hs) :: addHash rest day h

/-- Embedding of `updateStateHashes` (count_tokens_v4.js lines 312-333).  `cutoffKey` is
the day key of `now − RETENTION_DAYS`, `nowISO` the commit timestamp; both
are wall-clock inputs.  Every `dayKey < cutoffKey` (JS string comparison) is
deleted after the new fingerprints are inserted. -/
def updateStateHashes (cutoffKey nowISO : String) (state : MState)
    (entries : List UsageRecord) : MState :=
  let m := entries.foldl
    (fun m e => addHash m (dayKeyJs e.timestamp) e.interaction_hash)
    state.recentHashes
  { state with
      recentHashes := m.filter fun p => !jsLt p.1 cutoffKey
      lastCleanup := nowISO }

/-! ## State load with schema migration (`loadState`, count_tokens_v4.js
lines 149-172).  The persisted document may miss any field, so it is a
separate type with optional fields; the no-migration branch returns it
unchanged. -/

/-- A persisted Scan State as found on disk (fields may be absent). -/
structure RawState where
  version : Option String
  lastCleanup : Option String
  lastRunTimestamp : Option Int
  recentHashes : Option (List (String × List String))
  fileOffsets : Option (List (String × OffsetEntry))

/-- JavaScript `parseInt(s, 10)` restricted to the version components the
state file holds: the longest leading digit run, `none` for `NaN` (no leading
digits). -/
def parseIntJs (s : String) : Option Nat :=
  let ds := s.toList.takeWhile Char.isDigit
  if ds.isEmpty then none
  else some (ds.foldl (fun n c => 10 * n + (c.toNat - '0'.toNat)) 0)

/-- The value `parseInt(state.version?.split('.')[0] || '0', 10)` for a present
version string. -/
def versionMajor (v : String) : Option Nat :=
  let c := splitFirst '.' v
  parseIntJs (if c = "" then "0" else c)

/-- The migration test `!state.version || major < 4` (count_tokens_v4.js
lines 158-160).  An absent version reads as `'0'`; a `NaN` major fails
`major < 4`. -/
def shouldMigrate (version : Option String) : Bool :=
  match version with
  | none => true
  | some v =>
    v = "" ||
      match versionMajor v with
      | some m => decide (m < 4)
      | none => false

/-- Embedding of `loadState` (count_tokens_v4.js lines 149-172) on a persisted document
(`none` stands for an absent or unparseable state file, handled by the
`catch` / `existsSync` branches via `createDefaultState`).  On migration,
`version` becomes `'4.0.0'` and each falsy field is initialized to its
default; otherwise the parsed state is returned unchanged. -/
def loadState (nowISO : String) : Option RawState → RawState
  | none =>
    { version := some "4.0.0"
      lastCleanup := some nowISO
      lastRunTimestamp := some 0
      recentHashes := some []
      fileOffsets := some [] }
  | some s =>
    if shouldMigrate s.version then
      { version := some "4.0.0"
        lastCleanup :=
          match s.lastCleanup with
          | some c => if c = "" then some nowISO else some c
          | none => some nowISO
        lastRunTimestamp := some (s.lastRunTimestamp.getD 0)
        recentHashes := some (s.recentHashes.getD [])
        fileOffsets := some (s.fileOffsets.getD []) }
    else s

/-! ## Orchestrator (`main`, count_tokens_v4.js lines 337-439)

The run is modelled as a pure function of an environment that fixes the
wall clock, the on-disk documents, the collector's result, the network
oracle, and which fallible operations throw.  Operations whose source wraps
every failure in its own `catch` (`logger.log`, `loadState`, `loadBuffer`,
`clearBuffer`, the collector, `lock.release`) cannot throw and get no throw
flag.  The result records the on-disk documents after the run, the issued
delivery batches, whether the state commit happened, whether the fatal
`catch` handler ran, and the process exit code (the entry point
`main().catch(() => {}).finally(() => process.exit(0))`, line 438, exits 0
on every path). -/

/-- The constant `THROTTLE_INTERVAL` (count_tokens_v4.js line 30). -/
def THROTTLE_INTERVAL : Int := 30000

/-- Environment of one v4 run. -/
structure EnvV4 where
  /-- Value of `Date.now()` at the throttle check (also stored as `lastRunTimestamp`). -/
  nowMs : Int
  /-- Value of `new Date().toISOString()`. -/
  nowISO : String
  /-- Day key of `now − RETENTION_DAYS` used by `updateStateHashes`. -/
  cutoffKey : String
  /-- Result of `existsSync(configPath)`. -/
  configPresent : Bool
  /-- Whether `JSON.parse(configContent)` succeeds (a throw reaches the fatal handler). -/
  configParses : Bool
  /-- Truthiness of `config.enabled`. -/
  configEnabled : Bool
  /-- Truthiness of `config.serverUrl`. -/
  configServerUrl : Bool
  /-- Whether `lock.acquire()` throws a non-`EEXIST` error. -/
  lockThrows : Bool
  /-- Result of `lock.acquire()` otherwise. -/
  lockAcquired : Bool
  /-- Scan State on disk (`none` = absent or unparseable; `loadState` then
  yields the default state). -/
  stateDisk : Option MState
  /-- Result of `collectNewUsageDataIncremental` (the collector catches its own
  I/O errors). -/
  collected : List UsageRecord
  /-- The map `state.fileOffsets` as left by the collector. -/
  collectedOffsets : List (String × OffsetEntry)
  /-- Pending Buffer `pendingEntries` on disk (`none` = absent or corrupt). -/
  bufferDisk : Option (List UsageRecord)
  /-- Budget-exhaustion oracle of `sendWithBudget`. -/
  budget : Nat → Bool
  /-- Per-batch request success oracle. -/
  sendOk : Nat → Bool
  /-- Whether `sendRequest` throws synchronously before the first batch goes out
  (e.g. `new URL(config.serverUrl)` on a truthy but malformed URL). -/
  sendThrows : Bool
  /-- Whether `atomicWriteJson(BUFFER_FILE, …)` (line 411) throws. -/
  bufWriteThrows : Bool
  /-- Whether `atomicWriteJson(STATE_FILE, …)` (lines 401 / 419) throws. -/
  stateWriteThrows : Bool

/-- Observable outcome of one v4 run. -/
structure RunV4 where
  /-- Scan State file after the run. -/
  stateFile : Option MState
  /-- Pending Buffer file after the run (`none` = absent). -/
  bufferFile : Option (List UsageRecord)
  /-- Batches handed to `sendRequest`, with their outcomes. -/
  issuedBatches : List (List UsageRecord × Bool)
  /-- The state commit (`atomicWriteJson(STATE_FILE, state)`) succeeded. -/
  committed : Bool
  /-- The fatal `catch` handler (lines 426-430) ran. -/
  fatal : Bool
  /-- Process exit code. -/
  exitCode : Nat

/-- The body of `main` after the lock is acquired (count_tokens_v4.js lines
374-433): collect, merge the Pending Buffer, clear it, deliver, persist the
survivors, commit the state — with the fatal `catch` applied to each
injected throw. -/
def runLocked (env : EnvV4) : RunV4 :=
  let state := env.stateDisk.getD (createDefaultState env.nowISO)
  let newEntries := env.collected
  let state1 := { state with fileOffsets := env.collectedOffsets }
  let state1 :=
    if newEntries.isEmpty then state1
    else updateStateHashes env.cutoffKey env.nowISO state1 newEntries
  let buffered := env.bufferDisk.getD []
  let allEntries := buffered ++ newEntries
  -- `clearBuffer()` (line 396): from here the buffer file is deleted.
  if allEntries.isEmpty then
    if env.stateWriteThrows then
      { stateFile := env.stateDisk, bufferFile := none, issuedBatches := [],
        committed := false, fatal := true, exitCode := 0 }
    else
      { stateFile := some { state1 with lastRunTimestamp := env.nowMs },
        bufferFile := none, issuedBatches := [],
        committed := true, fatal := false, exitCode := 0 }
  else if env.sendThrows then
    { stateFile := env.stateDisk, bufferFile := none, issuedBatches := [],
      committed := false, fatal := true, exitCode := 0 }
  else
    let res := sendWithBudget env.budget env.sendOk allEntries
    let unsent := res.2.2
    if !unsent.isEmpty && env.bufWriteThrows then
      { stateFile := env.stateDisk, bufferFile := none, issuedBatches := res.1,
        committed := false, fatal := true, exitCode := 0 }
    else
      let bufferAfter := if unsent.isEmpty then none else some unsent
      if env.stateWriteThrows then
        { stateFile := env.stateDisk, bufferFile := bufferAfter,
          issuedBatches := res.1, committed := false, fatal := true, exitCode := 0 }
      else
        { stateFile := some { state1 with lastRunTimestamp := env.nowMs },
          bufferFile := bufferAfter, issuedBatches := res.1,
          committed := true, fatal := false, exitCode := 0 }

/-- Embedding of `main` (count_tokens_v4.js lines 337-434) under the process wrapper of
line 438. -/
def mainV4 (env : EnvV4) : RunV4 :=
  let unchanged : RunV4 :=
    { stateFile := env.stateDisk, bufferFile := env.bufferDisk,
      issuedBatches := [], committed := false, fatal := false, exitCode := 0 }
  if !env.configPresent then unchanged
  else if !env.configParses then { unchanged with fatal := true }
  else if !env.configEnabled || !env.configServerUrl then unchanged
  else
    let state := env.stateDisk.getD (createDefaultState env.nowISO)
    if env.nowMs - state.lastRunTimestamp < THROTTLE_INTERVAL then unchanged
    else if env.lockThrows then { unchanged with fatal := true }
    else if !env.lockAcquired then unchanged
    else runLocked env

/-! ## Hook v3 exit-code skeleton (`main`, count_tokens_v3.js lines 562-630)

Hook v3's `main` calls `process.exit(0)` on every path: the config-absent,
config-disabled, lock-busy, buffer-retained and normal paths (lines 570, 577,
583, 594, 615) and the fatal `catch` (line 621).  Only the branch structure
and the exit code are modelled; the v3 delivery pipeline itself is superseded
by v4 and outside the claims. -/

/-- Branch outcomes of one v3 run. -/
structure EnvV3 where
  configPresent : Bool
  configParses : Bool
  configEnabled : Bool
  configServerUrl : Bool
  lockThrows : Bool
  lockAcquired : Bool
  /-- Whether `analyzeBuffer()` found a nonempty buffer. -/
  bufferNonempty : Bool
  /-- Whether `processLargeBuffer` throws (e.g. a buffer write fails). -/
  processBufferThrows : Bool
  /-- Whether `processLargeBuffer` left nothing behind (`success && remaining == 0`). -/
  bufferDrained : Bool
  /-- Whether `sendBatchOptimized` or the state or buffer writes of the normal path throw. -/
  normalPathThrows : Bool
  /-- Any new entries collected on the normal path. -/
  anyNewEntries : Bool

/-- Exit code of one v3 run. -/
def mainV3Exit (e : EnvV3) : Nat :=
  if !e.configPresent then 0                    -- line 570
  else if !e.configParses then 0                -- fatal catch, line 621
  else if !e.configEnabled || !e.configServerUrl then 0  -- line 577
  else if e.lockThrows then 0                   -- fatal catch
  else if !e.lockAcquired then 0                -- line 583
  else if e.bufferNonempty then
    if e.processBufferThrows then 0             -- fatal catch
    else if !e.bufferDrained then 0             -- line 594
    else if e.anyNewEntries && e.normalPathThrows then 0  -- fatal catch
    else 0                                      -- line 615
  else if e.anyNewEntries && e.normalPathThrows then 0    -- fatal catch
  else 0                                        -- line 615

/-! ## FileLock (count_tokens_v4.js lines 79-138) -/

/-- The constant `LOCK_STALE_TIME` (count_tokens_v4.js line 35). -/
def LOCK_STALE_TIME : Nat := 10000

/-- What `open(lockFile, 'wx')` does on one attempt. -/
inductive CreateResult where
  | ok : CreateResult
  | eexist : CreateResult
  | throwErr : CreateResult
deriving DecidableEq

/-- Environment of one iteration of the `acquire` retry loop: the lock file
observed by `existsSync` (with its `lockAge`), whether reading/parsing it
throws, and the outcome of the exclusive create. -/
structure LockStep where
  present : Option Nat
  readThrows : Bool
  create : CreateResult

/-- Outcome of `acquire`: the `this.acquired` flag (also the return value
when no error escaped), the `lockAge`s of every lock file `unlink`ed by the
stale-lock branch (line 96), and whether a non-`EEXIST` error escaped. -/
structure AcquireOutcome where
  acquired : Bool
  deletedAges : List Nat
  threw : Bool

/-- Embedding of `FileLock.acquire` (count_tokens_v4.js lines 85-126).  The list length is
the number of loop iterations the 1-second budget allows; exhausting it is
the `return false` timeout path. -/
def acquireLoop : List LockStep → AcquireOutcome
  | [] => ⟨false, [], false⟩
  | s :: rest =>
    match s.present with
    | some age =>
      if s.readThrows then ⟨false, [], true⟩
      else if LOCK_STALE_TIME < age then
        -- stale lock: unlink it, then try the exclusive create
        match s.create with
        | .ok => ⟨true, [age], false⟩
        | .eexist =>
          let o := acquireLoop rest
          ⟨o.acquired, age :: o.deletedAges, o.threw⟩
        | .throwErr => ⟨false, [age], true⟩
      else
        -- live lock: sleep 50 ms and retry
        acquireLoop rest
    | none =>
      match s.create with
      | .ok => ⟨true, [], false⟩
      | .eexist => acquireLoop rest
      | .throwErr => ⟨false, [], true⟩

/-- Embedding of `FileLock.release` (count_tokens_v4.js lines 128-137): whether the lock
file is `unlink`ed, given the instance's `acquired` flag. -/
def releaseUnlinks (acquired : Bool) : Bool :=
  if acquired then true else false

/-! ## Generic list helpers -/

theorem take_length_take (l : List α) (n : Nat) :
    l.take ((l.take n).length) = l.take n := by
  rw [List.length_take]
  rcases Nat.le_total n l.length with h | h
  · rw [Nat.min_eq_left h]
  · rw [Nat.min_eq_right h, List.take_length, List.take_of_length_le h]

theorem take_length_take_add (l : List α) (n m : Nat) :
    l.take ((l.take n).length + m) = l.take n ++ (l.drop n).take m := by
  rw [List.length_take]
  rcases Nat.le_total n l.length with h | h
  · rw [Nat.min_eq_left h, List.take_add]
  · rw [Nat.min_eq_right h, List.take_of_length_le h,
      List.drop_eq_nil_of_le h, List.take_nil, List.append_nil,
      List.take_of_length_le (Nat.le_add_right _ _)]

/-! ## Behaviour of the delivery scheduler -/

theorem sendBatchLoop_flatten (budget sendOk : Nat → Bool) :
    ∀ (fuel : Nat) (remaining : List α) (bi : Nat),
      ((sendBatchLoop budget sendOk fuel remaining bi).map (·.1)).flatten
        = remaining.take
          (((sendBatchLoop budget sendOk fuel remaining bi).map (·.1)).flatten.length) := by
  intro fuel
  induction fuel with
  | zero => intro remaining bi; cases remaining <;> simp [sendBatchLoop]
  | succ fuel ih =>
    intro remaining bi
    cases remaining with
    | nil => simp [sendBatchLoop]
    | cons r rs =>
      cases hb : budget bi with
      | true => simp [sendBatchLoop, hb]
      | false =>
        cases hs : sendOk bi with
        | false => simp [sendBatchLoop, hb, hs, take_length_take]
        | true =>
          simp only [sendBatchLoop, hb, hs, Bool.false_eq_true, if_false, if_true,
            List.map_cons, List.flatten_cons, List.length_append]
          rw [take_length_take_add]
          exact congrArg _ (ih _ _)

theorem sentCount_sendBatchLoop_le (budget sendOk : Nat → Bool) :
    ∀ (fuel : Nat) (remaining : List α) (bi : Nat),
      sentCount (sendBatchLoop budget sendOk fuel remaining bi) ≤ remaining.length := by
  intro fuel
  induction fuel with
  | zero => intro remaining bi; cases remaining <;> simp [sendBatchLoop, sentCount]
  | succ fuel ih =>
    intro remaining bi
    cases remaining with
    | nil => simp [sendBatchLoop, sentCount]
    | cons r rs =>
      cases hb : budget bi with
      | true => simp [sendBatchLoop, hb, sentCount]
      | false =>
        cases hs : sendOk bi with
        | false => simp [sendBatchLoop, hb, hs, sentCount]
        | true =>
          have h := ih ((r :: rs).drop BATCH_SIZE) (bi + 1)
          simp only [sendBatchLoop, hb, hs, Bool.false_eq_true, if_false, if_true, sentCount,
            if_true, List.length_drop] at h ⊢
          have h2 : ((r :: rs).take BATCH_SIZE).length = min BATCH_SIZE (r :: rs).length :=
            List.length_take _ _
          omega

theorem sendBatchLoop_batch_bounds (budget sendOk : Nat → Bool) :
    ∀ (fuel : Nat) (remaining : List α) (bi : Nat),
      ((sendBatchLoop budget sendOk fuel remaining bi).all
        fun p => decide (p.1.length ≤ BATCH_SIZE) && !p.1.isEmpty) = true := by
  intro fuel
  induction fuel with
  | zero => intro remaining bi; cases remaining <;> simp [sendBatchLoop]
  | succ fuel ih =>
    intro remaining bi
    cases remaining with
    | nil => simp [sendBatchLoop]
    | cons r rs =>
      have h1 : ((r :: rs).take BATCH_SIZE).length ≤ BATCH_SIZE := by
        rw [List.length_take]; exact Nat.min_le_left _ _
      have h2 : ((r :: rs).take BATCH_SIZE).isEmpty = false := by
        rw [show BATCH_SIZE = 199 + 1 from rfl, List.take_succ_cons]; rfl
      cases hb : budget bi with
      | true => simp [sendBatchLoop, hb]
      | false =>
        cases hs : sendOk bi with
        | false => simp [sendBatchLoop, hb, hs, h1, h2]
        | true =>
          simp only [sendBatchLoop, hb, hs, Bool.false_eq_true, if_false, if_true,
            List.all_cons]
          simp [h1, h2, ih ((r :: rs).drop BATCH_SIZE) (bi + 1)]

theorem sendBatchLoop_stops_on_failure (budget sendOk : Nat → Bool) :
    ∀ (fuel : Nat) (remaining : List α) (bi : Nat),
      ((sendBatchLoop budget sendOk fuel remaining bi).dropLast.all (·.2)) = true := by
  intro fuel
  induction fuel with
  | zero => intro remaining bi; cases remaining <;> simp [sendBatchLoop]
  | succ fuel ih =>
    intro remaining bi
    cases remaining with
    | nil => simp [sendBatchLoop]
    | cons r rs =>
      cases hb : budget bi with
      | true => simp [sendBatchLoop, hb]
      | false =>
        cases hs : sendOk bi with
        | false => simp [sendBatchLoop, hb, hs]
        | true =>
          simp only [sendBatchLoop, hb, hs, Bool.false_eq_true, if_false, if_true]
          cases htr : sendBatchLoop budget sendOk fuel ((r :: rs).drop BATCH_SIZE) (bi + 1) with
          | nil => simp
          | cons q qs =>
            have h := ih ((r :: rs).drop BATCH_SIZE) (bi + 1)
            rw [htr] at h
            simpa using h

theorem sendBatchLoop_sent_flatten (budget sendOk : Nat → Bool) :
    ∀ (fuel : Nat) (remaining : List α) (bi : Nat),
      (((sendBatchLoop budget sendOk fuel remaining bi).filter (·.2)).map (·.1)).flatten
        = remaining.take (sentCount (sendBatchLoop budget sendOk fuel remaining bi)) := by
  intro fuel
  induction fuel with
  | zero => intro remaining bi; cases remaining <;> simp [sendBatchLoop, sentCount]
  | succ fuel ih =>
    intro remaining bi
    cases remaining with
    | nil => simp [sendBatchLoop, sentCount]
    | cons r rs =>
      cases hb : budget bi with
      | true => simp [sendBatchLoop, hb, sentCount]
      | false =>
        cases hs : sendOk bi with
        | false => simp [sendBatchLoop, hb, hs, sentCount]
        | true =>
          simp only [sendBatchLoop, hb, hs, Bool.false_eq_true, if_false, if_true,
            List.filter_cons, decide_eq_true_eq, List.map_cons, List.flatten_cons, sentCount]
          rw [take_length_take_add]
          exact congrArg _ (ih _ _)

/-- Claim C4 (functional_correctness, confirmed): `sendWithBudget` issues
batches of at most `BATCH_SIZE = 200` records strictly in input order (the
concatenation of all issued batches — the failed one included — is a prefix
of the input, and the successful ones concatenate to exactly the first
`totalSent` records), stops at the first failed request (every issued batch
except possibly the last succeeded), and returns `(totalSent, unsent)` with
`unsent = entries.slice(totalSent)`, the contiguous tail of the input from
index `totalSent`, so `totalSent + unsent.length = entries.length`. -/
theorem C4_sendWithBudget_contract (budget sendOk : Nat → Bool) (entries : List α) :
    (((sendWithBudget budget sendOk entries).1.all
        fun p => decide (p.1.length ≤ BATCH_SIZE) && !p.1.isEmpty) = true)
    ∧ (((sendWithBudget budget sendOk entries).1.map (·.1)).flatten
        = entries.take
          (((sendWithBudget budget sendOk entries).1.map (·.1)).flatten.length))
    ∧ (((sendWithBudget budget sendOk entries).1.dropLast.all (·.2)) = true)
    ∧ ((((sendWithBudget budget sendOk entries).1.filter (·.2)).map (·.1)).flatten
        = entries.take (sendWithBudget budget sendOk entries).2.1)
    ∧ ((sendWithBudget budget sendOk entries).2.2
        = entries.drop (sendWithBudget budget sendOk entries).2.1)
    ∧ ((sendWithBudget budget sendOk entries).2.1
        + (sendWithBudget budget sendOk entries).2.2.length = entries.length) := by
  refine ⟨sendBatchLoop_batch_bounds budget sendOk entries.length entries 0,
    sendBatchLoop_flatten budget sendOk entries.length entries 0,
    sendBatchLoop_stops_on_failure budget sendOk entries.length entries 0,
    sendBatchLoop_sent_flatten budget sendOk entries.length entries 0, rfl, ?_⟩
  have h := sentCount_sendBatchLoop_le budget sendOk entries.length entries 0
  simp only [sendWithBudget, List.length_drop]
  omega

/-! ## Record Parser (claim C6) -/

/-- Claim C6, counterexample (error_handling): the claim says a record whose
`input_tokens` is **not an integer** is rejected.  The source only checks
`typeof usage.input_tokens !== 'number'` (data-collector lines 62-63), so the
non-integer token count `3/2 = 1.5` is accepted and a Usage Record is
returned. -/
theorem C6_cex_non_integer_tokens_accepted :
    (mkRat 3 2).den ≠ 1
    ∧ (parseUsageFromLine (fun s => s)
        (some (.obj [("timestamp", .str "2025-10-01T00:00:00.000Z"),
          ("message", .obj [("usage", .obj [("input_tokens", .num (mkRat 3 2)),
            ("output_tokens", .num 2)])])]))).isSome = true :=
  ⟨by decide, rfl⟩

/-- Claim C6 as amended (error_handling, corrected): the parser returns a
rejection (`null`) for exactly these inputs, and a Usage Record otherwise:
a line on which `JSON.parse` throws (this covers empty and whitespace-only
lines and malformed JSON); a record whose `timestamp` is absent or falsy; a
record whose `message.usage` is absent or falsy; a record whose
`input_tokens` or `output_tokens` is not a **number** (`typeof` check — a
non-integer number is accepted).  Unknown fields never cause rejection (the
right-hand side mentions no other field), and the parser is a pure function
of the line. -/
theorem C6_parseUsageFromLine_rejects_iff (hash : String → String) (j : Json) :
    parseUsageFromLine hash none = none
    ∧ (parseUsageFromLine hash (some j) = none ↔
        truthy (jget j "timestamp") = false
        ∨ truthy (jget (jget j "message") "usage") = false
        ∨ isNumber (jget (jget (jget j "message") "usage") "input_tokens") = false
        ∨ isNumber (jget (jget (jget j "message") "usage") "output_tokens") = false) := by
  refine ⟨rfl, ?_⟩
  cases h1 : truthy (jget j "timestamp") with
  | false => simp [parseUsageFromLine, h1]
  | true =>
    cases h2 : truthy (jget (jget j "message") "usage") with
    | false => simp [parseUsageFromLine, h1, h2]
    | true =>
      cases hin : jget (jget (jget j "message") "usage") "input_tokens" <;>
        cases hout : jget (jget (jget j "message") "usage") "output_tokens" <;>
          simp [parseUsageFromLine, h1, h2, hin, hout, isNumber]

/-! ## State load and schema migration (claim C7) -/

/-- Claim C7 (functional_correctness, confirmed): `loadState` compares the
persisted schema version numerically on the major component.  If `version`
is absent or its numeric major component is below 4, the missing (falsy)
sub-fields are initialized to their defaults and `version` becomes
`'4.0.0'`; if the numeric major component is at least 4 — e.g. `'10.0.0'`,
which is lexicographically *smaller* than `'4.0.0'` — the parsed state is
returned unchanged. -/
theorem C7_loadState_migration (nowISO : String) (s : RawState) :
    ((s.version = none ∨ ∃ v m, s.version = some v ∧ versionMajor v = some m ∧ m < 4) →
      loadState nowISO (some s) =
        { version := some "4.0.0"
          lastCleanup :=
            match s.lastCleanup with
            | some c => if c = "" then some nowISO else some c
            | none => some nowISO
          lastRunTimestamp := some (s.lastRunTimestamp.getD 0)
          recentHashes := some (s.recentHashes.getD [])
          fileOffsets := some (s.fileOffsets.getD []) })
    ∧ (∀ v m, s.version = some v → versionMajor v = some m → 4 ≤ m →
        loadState nowISO (some s) = s) := by
  constructor
  · intro h
    have hm : shouldMigrate s.version = true := by
      rcases h with h | ⟨v, m, hv, hvm, hlt⟩
      · rw [h]; rfl
      · rw [hv]
        simp [shouldMigrate, hvm, hlt]
    simp [loadState, hm]
  · intro v m hv hvm h4
    have hne : v ≠ "" := by
      intro he
      rw [he] at hvm
      have : m = 0 := by
        have : versionMajor "" = some 0 := rfl
        rw [this] at hvm
        exact (Option.some_inj.mp hvm).symm
      omega
    have hm : shouldMigrate s.version = false := by
      rw [hv]
      simp only [shouldMigrate, hvm]
      simp [hne]
      omega
    simp [loadState, hm]

/-- Concrete persisted states exercising C7: a v10 state (kept as is,
despite `'10.0.0' < '4.0.0'` lexicographically) and a bare v3 state (all v4
sub-fields absent, all initialized). -/
def rawStateV10 : RawState :=
  { version := some "10.0.0"
    lastCleanup := some "2025-10-01T00:00:00.000Z"
    lastRunTimestamp := some 5
    recentHashes := some [("2025-10-01", ["h1"])]
    fileOffsets := some [("/a.jsonl", ⟨3, 3, 7⟩)] }

/-- A persisted v3-era state with every v4 sub-field missing. -/
def rawStateV3 : RawState :=
  { version := some "3.2.1"
    lastCleanup := none
    lastRunTimestamp := none
    recentHashes := none
    fileOffsets := none }

/-- Witness for C7: both branches at concrete persisted states. -/
theorem C7_loadState_migration_witness :
    loadState "T0" (some rawStateV10) = rawStateV10
    ∧ loadState "T0" (some rawStateV3) =
      { version := some "4.0.0", lastCleanup := some "T0", lastRunTimestamp := some 0,
        recentHashes := some [], fileOffsets := some [] } :=
  ⟨(C7_loadState_migration "T0" rawStateV10).2 "10.0.0" 10 rfl rfl (by norm_num),
    (C7_loadState_migration "T0" rawStateV3).1
      (Or.inr ⟨"3.2.1", 3, rfl, rfl, by norm_num⟩)⟩

/-! ## Incremental reader (claim C5) -/

/-- Claim C5, counterexample (functional_correctness): the claim asserts that in
*every* case where the incremental reader completes, the committed entry
equals `{offset: current.size, size: current.size, mtime: current.mtime}`.
In the unchanged-skip case the source returns without touching the entry
(data-collector lines 198-200), so a prior entry whose `offset` differs from
its `size` — here `{offset: 1, size: 3, mtime: 5}` against a file of size 3
and mtime 5 — survives as is and differs from `{offset: 3, size: 3,
mtime: 5}`. -/
theorem C5_cex_skip_keeps_stale_offset :
    readFileIncremental (fun s => s) [] ⟨[none, none, none], 5⟩ (some ⟨1, 3, 5⟩)
      = ([], ⟨1, 3, 5⟩)
    ∧ (⟨1, 3, 5⟩ : OffsetEntry) ≠ ⟨3, 3, 5⟩ :=
  ⟨rfl, by decide⟩

/-- Claim C5 as amended (functional_correctness, corrected): for every file with a
prior File Offset Entry, the incremental reader (1) produces an empty record
stream and leaves the entry unchanged when the current stat's size and mtime
equal the saved ones (so the kept entry equals
`{offset: current.size, size: current.size, mtime: current.mtime}` only when
the prior entry's offset already equalled its size); (2) rescans from byte 0
when the current size is strictly less than the saved size; (3) otherwise
reads from the saved offset to EOF; and in cases (2) and (3) — every
completing case in which the entry is rewritten — the committed entry equals
`{offset: current.size, size: current.size, mtime: current.mtime}`. -/
theorem C5_readFileIncremental_cases (hash : String → String)
    (idx : List (String × List String)) (f : JFile) (e : OffsetEntry) :
    (e.size = f.size ∧ e.mtime = f.mtime →
      readFileIncremental hash idx f (some e) = ([], e))
    ∧ (f.size < e.size →
      readFileIncremental hash idx f (some e)
        = (parseNewLines hash idx f.lines, ⟨f.size, f.size, f.mtime⟩))
    ∧ (¬(e.size = f.size ∧ e.mtime = f.mtime) → e.size ≤ f.size →
      readFileIncremental hash idx f (some e)
        = (parseNewLines hash idx (f.lines.drop e.offset), ⟨f.size, f.size, f.mtime⟩)) := by
  refine ⟨?_, ?_, ?_⟩
  · rintro ⟨h1, h2⟩
    simp [readFileIncremental, h1, h2]
  · intro hlt
    have hne : ¬(e.size = f.size ∧ e.mtime = f.mtime) := by
      rintro ⟨h1, _⟩; omega
    simp only [readFileIncremental, if_neg hne, if_pos hlt]
    by_cases h0 : f.size ≤ 0
    · have hnil : f.lines = [] := by
        have : f.lines.length = 0 := Nat.le_zero.mp h0
        exact List.eq_nil_of_length_eq_zero this
      simp [h0, hnil, parseNewLines]
    · simp [h0]
  · intro hne hle
    have hnlt : ¬(f.size < e.size) := by omega
    simp only [readFileIncremental, if_neg hne, if_neg hnlt]
    by_cases h0 : f.size ≤ e.offset
    · have hnil : f.lines.drop e.offset = [] := List.drop_eq_nil_of_le h0
      simp [h0, hnil, parseNewLines]
    · simp [h0]

/-- Witness for C5 amended: the three cases at concrete files and entries
(skip; truncation rescan from 0; growth read from the saved offset). -/
theorem C5_readFileIncremental_cases_witness :
    readFileIncremental (fun s => s) [] ⟨[none, none], 7⟩ (some ⟨2, 2, 7⟩) = ([], ⟨2, 2, 7⟩)
    ∧ readFileIncremental (fun s => s) [] ⟨[none], 7⟩ (some ⟨2, 2, 5⟩)
        = (parseNewLines (fun s => s) [] [none], ⟨1, 1, 7⟩)
    ∧ readFileIncremental (fun s => s) [] ⟨[none, none], 9⟩ (some ⟨1, 1, 5⟩)
        = (parseNewLines (fun s => s) [] ([none, none].drop 1), ⟨2, 2, 9⟩) :=
  ⟨(C5_readFileIncremental_cases (fun s => s) [] ⟨[none, none], 7⟩ ⟨2, 2, 7⟩).1
      ⟨rfl, rfl⟩,
    (C5_readFileIncremental_cases (fun s => s) [] ⟨[none], 7⟩ ⟨2, 2, 5⟩).2.1
      (by decide),
    (C5_readFileIncremental_cases (fun s => s) [] ⟨[none, none], 9⟩ ⟨1, 1, 5⟩).2.2
      (by decide) (by decide)⟩

/-! ## Collector dedup behaviour (claims C9 and C2) -/

theorem parseNewLines_not_indexed (hash : String → String)
    (idx : List (String × List String)) :
    ∀ lines, ((parseNewLines hash idx lines).all
      fun e => !hasHash idx (dayKeyJs e.timestamp) e.interaction_hash) = true := by
  intro lines
  induction lines with
  | nil => rfl
  | cons l ls ih =>
    simp only [parseNewLines]
    cases hp : parseUsageFromLine hash l with
    | none => exact ih
    | some e =>
      cases hh : hasHash idx (dayKeyJs e.timestamp) e.interaction_hash with
      | true => simpa [hh] using ih
      | false => simp [hh, ih]

theorem readFileIncremental_not_indexed (hash : String → String)
    (idx : List (String × List String)) (f : JFile) (saved : Option OffsetEntry) :
    (((readFileIncremental hash idx f saved).1).all
      fun e => !hasHash idx (dayKeyJs e.timestamp) e.interaction_hash) = true := by
  cases saved with
  | none =>
    by_cases h0 : f.size ≤ 0
    · simp [readFileIncremental, h0]
    · simp [readFileIncremental, h0, parseNewLines_not_indexed]
  | some e =>
    by_cases hskip : e.size = f.size ∧ e.mtime = f.mtime
    · simp [readFileIncremental, hskip]
    · simp only [readFileIncremental, if_neg hskip]
      by_cases h0 : f.size ≤ if f.size < e.size then 0 else e.offset
      · simp [h0]
      · simp [h0, parseNewLines_not_indexed]

/-- Claim C2 as amended (temporal, corrected): the at-most-once guarantee holds
for *collection*: a fingerprint present in the Dedup Index loaded at run
start is never emitted again by the incremental collector (for its day key),
so it can re-enter a delivery batch only through the Pending Buffer — which
does happen (see the counterexample): a record whose delivery failed is
buffered, its fingerprint is committed to the index, and the next run sends
the buffered record even though its fingerprint is in the index. -/
theorem C2_collector_never_reemits_indexed (hash : String → String)
    (recentHashes : List (String × List String)) (files : List (String × JFile))
    (offsets : List (String × OffsetEntry)) :
    (((collectNewUsageDataIncremental hash recentHashes files offsets).1).all
      fun e => !hasHash recentHashes (dayKeyJs e.timestamp) e.interaction_hash) = true := by
  induction files with
  | nil => rfl
  | cons pf fs ih =>
    simp only [collectNewUsageDataIncremental, List.map_cons, List.flatten_cons,
      List.all_append] at ih ⊢
    simp [readFileIncremental_not_indexed, ih]

/-- A log line holding one valid usage record. -/
def jRec : Json :=
  .obj [("timestamp", .str "2025-10-01T00:00:00.000Z"),
    ("message", .obj [("usage", .obj [("input_tokens", .num 1), ("output_tokens", .num 2)]),
      ("id", .str "m1")]),
    ("requestId", .str "q1")]

/-- The Usage Record parsed from `jRec` (under the identity stand-in for the
hash function). -/
def rRec : UsageRecord :=
  { timestamp := .str "2025-10-01T00:00:00.000Z", input := 1, output := 2,
    cache_creation := .num 0, cache_read := .num 0, model := .str "unknown",
    session_id := .null,
    interaction_hash := "2025-10-01T00:00:00.000Zm1q1" }

/-- A log file holding the single line `jRec`. -/
def fileA : JFile := ⟨[some jRec], 7⟩

/-- A baseline run environment: config present and enabled, lock acquired,
no throttling (`lastRun = 0`, `now` large), nothing on disk, nothing
collected, generous budget, all requests succeed, nothing throws. -/
def envBase : EnvV4 :=
  { nowMs := 1000000, nowISO := "2025-10-11T00:00:00.000Z", cutoffKey := "2025-09-11",
    configPresent := true, configParses := true, configEnabled := true,
    configServerUrl := true, lockThrows := false, lockAcquired := true,
    stateDisk := none, collected := [], collectedOffsets := [], bufferDisk := none,
    budget := fun _ => false, sendOk := fun _ => true,
    sendThrows := false, bufWriteThrows := false, stateWriteThrows := false }

/-- Claim C9 (functional_correctness, confirmed): within a single run, freshly
collected records are deduplicated only against the Dedup Index as loaded at
run start.  If two newly appended lines of one file parse to records with
equal fingerprints that are not in the loaded index, the collector emits
both, and a run whose collection returned them hands both to the delivery
scheduler (both occurrences appear in the issued batches). -/
theorem C9_no_intra_run_dedup (hash : String → String)
    (recentHashes : List (String × List String)) (p : String) (m : Nat)
    (j1 j2 : Json) (r1 r2 : UsageRecord)
    (h1 : parseUsageFromLine hash (some j1) = some r1)
    (h2 : parseUsageFromLine hash (some j2) = some r2)
    (_hdup : r1.interaction_hash = r2.interaction_hash)
    (hn1 : hasHash recentHashes (dayKeyJs r1.timestamp) r1.interaction_hash = false)
    (hn2 : hasHash recentHashes (dayKeyJs r2.timestamp) r2.interaction_hash = false) :
    (collectNewUsageDataIncremental hash recentHashes
        [(p, ⟨[some j1, some j2], m⟩)] []).1 = [r1, r2]
    ∧ (((mainV4 { envBase with collected := [r1, r2] }).issuedBatches.map (·.1)).flatten
        = [r1, r2]) := by
  constructor
  · simp [collectNewUsageDataIncremental, readFileIncremental, JFile.size,
      parseNewLines, h1, h2, hn1, hn2]
  · rfl

/-- Witness for C9: the duplicated concrete line `jRec` (same fingerprint,
absent from the empty index) is collected twice and delivered twice. -/
theorem C9_no_intra_run_dedup_witness :
    (collectNewUsageDataIncremental (fun s => s) [] [("a", ⟨[some jRec, some jRec], 7⟩)] []).1
      = [rRec, rRec]
    ∧ (((mainV4 { envBase with collected := [rRec, rRec] }).issuedBatches.map (·.1)).flatten
        = [rRec, rRec]) :=
  C9_no_intra_run_dedup (fun s => s) [] "a" 7 jRec jRec rRec rRec rfl rfl rfl rfl rfl

/-! ## Two-run delivery trace (counterexample to claim C2) -/

/-- Run 1: fresh state, the collector finds `rRec` in `fileA`, every request
fails (server down), nothing throws. -/
def envRun1 : EnvV4 :=
  { envBase with
    collected := (collectNewUsageDataIncremental (fun s => s) [] [("a", fileA)] []).1
    collectedOffsets :=
      (collectNewUsageDataIncremental (fun s => s) [] [("a", fileA)] []).2
    sendOk := fun _ => false }

/-- The Scan State committed by run 1. -/
def stateAfterRun1 : MState :=
  ((mainV4 envRun1).stateFile).getD (createDefaultState "")

/-- Run 2, a minute later: state and buffer as run 1 left them, the same
(unchanged) log file, requests now succeed. -/
def envRun2 : EnvV4 :=
  { envBase with
    nowMs := 2000000
    nowISO := "2025-10-11T00:01:00.000Z"
    stateDisk := (mainV4 envRun1).stateFile
    collected := (collectNewUsageDataIncremental (fun s => s) stateAfterRun1.recentHashes
      [("a", fileA)] stateAfterRun1.fileOffsets).1
    collectedOffsets := (collectNewUsageDataIncremental (fun s => s) stateAfterRun1.recentHashes
      [("a", fileA)] stateAfterRun1.fileOffsets).2
    bufferDisk := (mainV4 envRun1).bufferFile }

/-- Claim C2, counterexample (temporal): run 1 collects `rRec`, commits its
fingerprint to the Dedup Index (within the retention window: its day key is
not before the cutoff), fails to deliver it and buffers it.  Run 2 collects
nothing new (the file is unchanged), yet the fingerprint *is* included in a
delivery batch of this subsequent run, via the Pending Buffer — refuting
"never included in any delivery batch sent by a subsequent run". -/
theorem C2_cex_buffered_record_resent :
    (mainV4 envRun1).committed = true
    ∧ hasHash stateAfterRun1.recentHashes (dayKeyJs rRec.timestamp)
        rRec.interaction_hash = true
    ∧ jsLt (dayKeyJs rRec.timestamp) envRun2.cutoffKey = false
    ∧ envRun2.collected = []
    ∧ ((((mainV4 envRun2).issuedBatches.map (·.1)).flatten.map
        (·.interaction_hash)).contains rRec.interaction_hash) = true :=
  ⟨rfl, rfl, rfl, rfl, rfl⟩

/-! ## Dedup retention on commit (claim C3) -/

theorem all_filter_self (p : α → Bool) (l : List α) : ((l.filter p).all p) = true := by
  induction l with
  | nil => rfl
  | cons a l ih =>
    by_cases h : p a <;> simp [List.filter_cons, h, ih]

theorem updateStateHashes_retention (cutoffKey nowISO : String) (state : MState)
    (entries : List UsageRecord) :
    ((updateStateHashes cutoffKey nowISO state entries).recentHashes.all
      fun p => !jsLt p.1 cutoffKey) = true := by
  simp only [updateStateHashes]
  exact all_filter_self _ _

theorem mainV4_committed_runLocked (env : EnvV4)
    (h : (mainV4 env).committed = true) : mainV4 env = runLocked env := by
  simp only [mainV4] at h ⊢
  split_ifs at h ⊢
  rfl

theorem runLocked_committed_recentHashes (env : EnvV4) (st : MState)
    (hne : env.collected.isEmpty = false)
    (hcommit : (runLocked env).committed = true)
    (hst : (runLocked env).stateFile = some st) :
    st.recentHashes
      = (updateStateHashes env.cutoffKey env.nowISO
          { env.stateDisk.getD (createDefaultState env.nowISO) with
              fileOffsets := env.collectedOffsets } env.collected).recentHashes := by
  have hall : (env.bufferDisk.getD [] ++ env.collected).isEmpty = false := by
    cases henv : env.collected with
    | nil => rw [henv] at hne; simp at hne
    | cons a l => simp [henv]
  simp only [runLocked, hne, Bool.false_eq_true, if_false, hall] at hcommit hst
  split_ifs at hcommit hst <;>
    first
      | exact absurd hcommit (by decide)
      | (simp only [Option.some.injEq] at hst
         subst hst
         rfl)

/-- A Scan State holding one Dedup Index day key from 2020, far outside the
30-day retention window. -/
def staleState : MState :=
  { version := "4.0.0", lastCleanup := "t", lastRunTimestamp := 0,
    recentHashes := [("2020-01-01", ["h"])], fileOffsets := [] }

/-- Claim C3, counterexample (invariants): the claim includes commits of runs
that collected zero new records, but retention pruning only happens inside
`updateStateHashes`, which `main` calls only when `newEntries.length > 0`
(count_tokens_v4.js lines 381-383).  A run that collects nothing still
commits the state (lines 399-401), leaving a day key from 2020 — far older
than 30 days before the wall clock — in the Dedup Index. -/
theorem C3_cex_zero_entry_commit_skips_pruning :
    (mainV4 { envBase with stateDisk := some staleState }).committed = true
    ∧ (mainV4 { envBase with stateDisk := some staleState }).stateFile
      = some { staleState with lastRunTimestamp := 1000000 }
    ∧ jsLt "2020-01-01" envBase.cutoffKey = true :=
  ⟨rfl, rfl, rfl⟩

/-- Claim C3 as amended (invariants, corrected): after every commit of the Scan
State by a run that collected at least one new record, the Dedup Index
contains no day key strictly older than the 30-day cutoff day of the current
wall clock; commits of zero-collection runs do not prune (see the
counterexample). -/
theorem C3_retention_after_nonempty_commit (env : EnvV4) (st : MState)
    (hne : env.collected ≠ [])
    (hcommit : (mainV4 env).committed = true)
    (hst : (mainV4 env).stateFile = some st) :
    (st.recentHashes.all fun p => !jsLt p.1 env.cutoffKey) = true := by
  have heq := mainV4_committed_runLocked env hcommit
  rw [heq] at hcommit hst
  have hne' : env.collected.isEmpty = false := by
    cases h : env.collected with
    | nil => exact absurd h hne
    | cons a l => rfl
  rw [runLocked_committed_recentHashes env st hne' hcommit hst]
  exact updateStateHashes_retention _ _ _ _

/-- Witness for C3 amended: a run that collects `rRec`, delivers it and
commits; the committed index holds no expired day key. -/
theorem C3_retention_after_nonempty_commit_witness :
    (((((mainV4 { envBase with collected := [rRec] }).stateFile).getD
        (createDefaultState "")).recentHashes.all
      fun p => !jsLt p.1 "2025-09-11") = true) :=
  C3_retention_after_nonempty_commit { envBase with collected := [rRec] }
    (((mainV4 { envBase with collected := [rRec] }).stateFile).getD
      (createDefaultState ""))
    (by simp) rfl rfl

/-! ## Buffer loss on a mid-stream exception (claim C1) -/

/-- Claim C1 (error_handling, code_bug): the specification requires any
exception raised after the Pending Buffer was loaded and cleared (step 5) but
before the new buffer is written (step 8) to re-persist the in-memory records
before propagating.  The source's fatal handler (count_tokens_v4.js lines
426-430) only logs.  Here: the buffer holds one pending record, nothing new
is collected, and `sendRequest` throws before any batch goes out (for
example `new URL(config.serverUrl)` raising on a truthy but malformed URL).
The run ends fatal with exit 0, the buffer file already deleted and never
rewritten, the record never issued and the state not committed — the record
is gone. -/
theorem C1_buffer_lost_on_midstream_exception :
    (mainV4 { envBase with bufferDisk := some [rRec], sendThrows := true }).fatal = true
    ∧ (mainV4 { envBase with bufferDisk := some [rRec], sendThrows := true }).bufferFile
        = none
    ∧ (mainV4 { envBase with bufferDisk := some [rRec], sendThrows := true }).issuedBatches
        = []
    ∧ (mainV4 { envBase with bufferDisk := some [rRec], sendThrows := true }).committed
        = false
    ∧ (mainV4 { envBase with bufferDisk := some [rRec], sendThrows := true }).exitCode = 0 :=
  ⟨rfl, rfl, rfl, rfl, rfl⟩

/-! ## Exit code (claim C8) -/

/-- Claim C8 (temporal, confirmed): for every environment — configuration
absent or corrupt, throttled, lock busy or throwing, corrupt state or buffer
(the `none` disk documents), network failure, a throwing send, buffer-write
or state-commit failure, or a clean run — the v4 engine exits 0 (the wrapper
`main().catch(() => {}).finally(() => process.exit(0))`), and every branch of
the v3 engine's `main` reaches `process.exit(0)`. -/
theorem C8_exit_code_always_zero (env4 : EnvV4) (env3 : EnvV3) :
    (mainV4 env4).exitCode = 0 ∧ mainV3Exit env3 = 0 := by
  have hlocked : ∀ env : EnvV4, (runLocked env).exitCode = 0 := by
    intro env
    simp only [runLocked]
    split_ifs <;> rfl
  constructor
  · simp only [mainV4]
    split_ifs <;> first | rfl | exact hlocked env4
  · simp only [mainV3Exit]
    split_ifs <;> rfl

/-! ## Lock discipline (claim C10) -/

/-- Claim C10 (safety, confirmed): `FileLock.release` unlinks the lock file
exactly when this instance's `acquired` flag is set; an `acquire` that did
not succeed (timeout, or an escaped error) leaves the flag unset, so its
`release` deletes nothing; and the only lock files `acquire` itself ever
unlinks are stale ones (`lockAge > LOCK_STALE_TIME`).  Hence a contender
that times out cannot remove another live process's lock claim. -/
theorem C10_release_only_after_acquire (steps : List LockStep) :
    (releaseUnlinks (acquireLoop steps).acquired = (acquireLoop steps).acquired)
    ∧ ((acquireLoop steps).acquired = false →
        releaseUnlinks (acquireLoop steps).acquired = false)
    ∧ (((acquireLoop steps).deletedAges.all
        fun a => decide (LOCK_STALE_TIME < a)) = true) := by
  refine ⟨by simp [releaseUnlinks], fun h => by simp [releaseUnlinks, h], ?_⟩
  induction steps with
  | nil => rfl
  | cons s rest ih =>
    obtain ⟨pres, rt, cr⟩ := s
    cases pres with
    | none => cases cr <;> simp [acquireLoop, ih]
    | some age =>
      cases rt with
      | true => simp [acquireLoop]
      | false =>
        by_cases hage : LOCK_STALE_TIME < age
        · cases cr <;> simp [acquireLoop, hage, ih]
        · simp [acquireLoop, hage, ih]

/-- Witness for C10: a contender that sees a live (5 ms old) lock and times
out deletes nothing; a contender that sees a stale (20 s old) lock deletes
only that stale lock. -/
theorem C10_release_only_after_acquire_witness :
    releaseUnlinks (acquireLoop [⟨some 5, false, .eexist⟩]).acquired = false
    ∧ ((acquireLoop [⟨some 20000, false, .eexist⟩]).deletedAges.all
        fun a => decide (LOCK_STALE_TIME < a)) = true :=
  ⟨(C10_release_only_after_acquire [⟨some 5, false, .eexist⟩]).2.1 rfl,
    (C10_release_only_after_acquire [⟨some 20000, false, .eexist⟩]).2.2⟩

end ClaudeStats
